import Mathlib

/-!
Shallow embedding of the `fraud-catcher` Python package
(`src/packages/python/src/fraud_catcher/`): the orchestrator
(`fraud_detector.py`, `FraudDetector.analyze`) and the velocity, amount,
location, device and time signals.  Python floats are modelled as rationals;
wall-clock datetimes are modelled as rational epoch seconds passed in
explicitly.  Every definition is translated from the repository source.
-/

namespace FraudCatcher

/-! ## Orchestrator (`fraud_detector.py`, `FraudDetector.analyze`)

The loop over `self.rules.items()` evaluates one rule per iteration.  A rule
whose signal call did not complete — the rule is disabled, the algorithm is
missing from `self.algorithms`, or `algorithm.analyze` raised and the
`except` clause absorbed it — contributes nothing.  `outcome = none` models
a rule that is enabled but whose signal call did not complete; a disabled
rule is modelled by `enabled = false`. -/

structure RuleEval where
  name : String
  weight : ℚ
  threshold : ℚ
  enabled : Bool
  outcome : Option ℚ
deriving Repr, DecidableEq

/-- One iteration of the rule loop in `FraudDetector.analyze` (lines 240-258):
the accumulator is `(triggered_rules, total_weighted_score, total_weight)`. -/
def loopStep (acc : List String × ℚ × ℚ) (r : RuleEval) : List String × ℚ × ℚ :=
  if r.enabled then
    match r.outcome with
    | some score =>
        ((if score ≥ r.threshold then acc.1 ++ [r.name] else acc.1),
         acc.2.1 + score * r.weight,
         acc.2.2 + r.weight)
    | none => acc
  else acc

def analyzeLoop (rs : List RuleEval) : List String × ℚ × ℚ :=
  rs.foldl loopStep ([], 0, 0)

def triggeredRules (rs : List RuleEval) : List String :=
  (analyzeLoop rs).1

def totalWeightedScore (rs : List RuleEval) : ℚ :=
  (analyzeLoop rs).2.1

def totalWeight (rs : List RuleEval) : ℚ :=
  (analyzeLoop rs).2.2

/-- `risk_score = total_weighted_score / total_weight if total_weight > 0 else 0.0`. -/
def rawRiskScore (rs : List RuleEval) : ℚ :=
  if totalWeight rs > 0 then totalWeightedScore rs / totalWeight rs else 0

structure FraudResult where
  transactionId : String
  riskScore : ℚ
  isFraudulent : Bool
  confidence : ℚ
  triggeredRules : List String
deriving Repr, DecidableEq

/-- `confidence = min(len(triggered_rules) / len(self.config.rules), 1.0)
if self.config.rules else 0.0`. -/
def confidenceOf (cfgRules : List String) (rs : List RuleEval) : ℚ :=
  if cfgRules ≠ [] then
    min (((triggeredRules rs).length : ℚ) / (cfgRules.length : ℚ)) 1
  else 0

/-- The `FraudResult` built at the end of `FraudDetector.analyze`
(lines 260-280); `is_fraudulent` compares the unclamped score with the
global threshold, `risk_score` is clamped with `min(risk_score, 1.0)`. -/
def analyzeResult (globalThreshold : ℚ) (cfgRules : List String) (txId : String)
    (rs : List RuleEval) : FraudResult :=
  { transactionId := txId
    riskScore := min (rawRiskScore rs) 1
    isFraudulent := decide (rawRiskScore rs ≥ globalThreshold)
    confidence := confidenceOf cfgRules rs
    triggeredRules := triggeredRules rs }

/-- The (score, weight) pairs of exactly the enabled rules whose signal call
completed: the rules that reach the two `+=` accumulations in the loop. -/
def ruleContribs (rs : List RuleEval) : List (ℚ × ℚ) :=
  rs.filterMap fun r =>
    if r.enabled then r.outcome.map (fun s => (s, r.weight)) else none

def contribScoreSum (rs : List RuleEval) : ℚ :=
  ((ruleContribs rs).map fun p => p.1 * p.2).sum

def contribWeightSum (rs : List RuleEval) : ℚ :=
  ((ruleContribs rs).map Prod.snd).sum

theorem foldl_loopStep_snd (rs : List RuleEval) :
    ∀ init : List String × ℚ × ℚ,
      (rs.foldl loopStep init).2 =
        (init.2.1 + contribScoreSum rs, init.2.2 + contribWeightSum rs) := by
  induction rs with
  | nil =>
      intro init
      simp [contribScoreSum, contribWeightSum, ruleContribs]
  | cons r rs ih =>
      intro init
      rw [List.foldl_cons, ih]
      by_cases he : r.enabled
      · cases ho : r.outcome with
        | none =>
            simp [loopStep, he, ho, contribScoreSum, contribWeightSum, ruleContribs]
        | some s =>
            by_cases ht : s ≥ r.threshold
            · simp only [loopStep, he, if_true, ho, ht, ite_true,
                contribScoreSum, contribWeightSum, ruleContribs,
                List.filterMap_cons, Option.map_some', List.map_cons, List.sum_cons,
                Prod.mk.injEq]
              constructor <;> ring
            · simp only [loopStep, he, if_true, ho, ht, ite_false,
                contribScoreSum, contribWeightSum, ruleContribs,
                List.filterMap_cons, Option.map_some', List.map_cons, List.sum_cons,
                Prod.mk.injEq]
              constructor <;> ring
      · simp [loopStep, he, contribScoreSum, contribWeightSum, ruleContribs]

theorem totalWeightedScore_eq (rs : List RuleEval) :
    totalWeightedScore rs = contribScoreSum rs := by
  have h := foldl_loopStep_snd rs ([], 0, 0)
  unfold totalWeightedScore analyzeLoop
  rw [h]
  simp

theorem totalWeight_eq (rs : List RuleEval) :
    totalWeight rs = contribWeightSum rs := by
  have h := foldl_loopStep_snd rs ([], 0, 0)
  unfold totalWeight analyzeLoop
  rw [h]
  simp

theorem mem_ruleContribs (rs : List RuleEval) (p : ℚ × ℚ)
    (hp : p ∈ ruleContribs rs) :
    ∃ r ∈ rs, r.enabled = true ∧ r.outcome = some p.1 ∧ r.weight = p.2 := by
  unfold ruleContribs at hp
  rcases List.mem_filterMap.mp hp with ⟨r, hr, hfr⟩
  by_cases he : r.enabled
  · rw [if_pos he] at hfr
    cases ho : r.outcome with
    | none => rw [ho] at hfr; simp at hfr
    | some s =>
        rw [ho] at hfr
        simp only [Option.map_some'] at hfr
        obtain rfl : (s, r.weight) = p := Option.some.inj hfr
        exact ⟨r, hr, he, ho, rfl⟩
  · rw [if_neg he] at hfr
    simp at hfr

theorem contribWeightSum_nonneg (rs : List RuleEval)
    (hw : ∀ r ∈ rs, 0 ≤ r.weight) : 0 ≤ contribWeightSum rs := by
  unfold contribWeightSum
  apply List.sum_nonneg
  intro x hx
  rcases List.mem_map.mp hx with ⟨p, hp, rfl⟩
  rcases mem_ruleContribs rs p hp with ⟨r, hr, -, -, hwp⟩
  exact hwp ▸ hw r hr

theorem contribScoreSum_nonneg (rs : List RuleEval)
    (hw : ∀ r ∈ rs, 0 ≤ r.weight)
    (hs : ∀ r ∈ rs, ∀ s, r.outcome = some s → 0 ≤ s ∧ s ≤ 1) :
    0 ≤ contribScoreSum rs := by
  unfold contribScoreSum
  apply List.sum_nonneg
  intro x hx
  rcases List.mem_map.mp hx with ⟨p, hp, rfl⟩
  rcases mem_ruleContribs rs p hp with ⟨r, hr, -, ho, hwp⟩
  have h1 := (hs r hr p.1 ho).1
  have h2 := hwp ▸ hw r hr
  exact mul_nonneg h1 h2

theorem contribScoreSum_le_weightSum (rs : List RuleEval)
    (hw : ∀ r ∈ rs, 0 ≤ r.weight)
    (hs : ∀ r ∈ rs, ∀ s, r.outcome = some s → 0 ≤ s ∧ s ≤ 1) :
    contribScoreSum rs ≤ contribWeightSum rs := by
  unfold contribScoreSum contribWeightSum
  apply List.sum_le_sum
  intro p hp
  rcases mem_ruleContribs rs p hp with ⟨r, hr, -, ho, hwp⟩
  have h1 := (hs r hr p.1 ho).2
  have h2 : (0 : ℚ) ≤ p.2 := hwp ▸ hw r hr
  calc p.1 * p.2 ≤ 1 * p.2 := mul_le_mul_of_nonneg_right h1 h2
    _ = p.2 := one_mul _

/-- C1: the aggregate risk score returned by `FraudDetector.analyze` is the
weighted average `Σ(score·weight)/Σ(weight)` taken over exactly the enabled
rules whose signal call completed, whenever that weight sum is positive, and
is `0` when the weight sum is `0`.  The first two conjuncts identify the
loop accumulators with the sums over exactly the contributing rules. -/
theorem aggregate_score_is_weighted_average
    (globalThreshold : ℚ) (cfgRules : List String) (txId : String)
    (rs : List RuleEval)
    (hw : ∀ r ∈ rs, 0 ≤ r.weight)
    (hs : ∀ r ∈ rs, ∀ s, r.outcome = some s → 0 ≤ s ∧ s ≤ 1) :
    totalWeightedScore rs = contribScoreSum rs ∧
    totalWeight rs = contribWeightSum rs ∧
    (0 < totalWeight rs →
      (analyzeResult globalThreshold cfgRules txId rs).riskScore =
        contribScoreSum rs / contribWeightSum rs) ∧
    (totalWeight rs = 0 →
      (analyzeResult globalThreshold cfgRules txId rs).riskScore = 0) := by
  refine ⟨totalWeightedScore_eq rs, totalWeight_eq rs, ?_, ?_⟩
  · intro hpos
    have htw : totalWeight rs = contribWeightSum rs := totalWeight_eq rs
    have hts : totalWeightedScore rs = contribScoreSum rs := totalWeightedScore_eq rs
    have hle : contribScoreSum rs ≤ contribWeightSum rs :=
      contribScoreSum_le_weightSum rs hw hs
    have hpos' : 0 < contribWeightSum rs := htw ▸ hpos
    have hdiv : contribScoreSum rs / contribWeightSum rs ≤ 1 :=
      (div_le_one hpos').mpr hle
    simp only [analyzeResult, rawRiskScore, hts, htw]
    rw [if_pos hpos']
    exact min_eq_left hdiv
  · intro hzero
    simp only [analyzeResult, rawRiskScore]
    rw [if_neg (by rw [hzero]; exact lt_irrefl 0)]
    simp

/-- C1 witness: a concrete two-rule configuration with weight sum 3/10. -/
theorem aggregate_score_is_weighted_average_witness :
    (analyzeResult (7/10) ["velocity", "amount"] "tx1"
        [{ name := "velocity", weight := 15/100, threshold := 8/10,
           enabled := true, outcome := some (1/2) },
         { name := "amount", weight := 15/100, threshold := 9/10,
           enabled := true, outcome := some 1 }]).riskScore =
      contribScoreSum
        [{ name := "velocity", weight := 15/100, threshold := 8/10,
           enabled := true, outcome := some (1/2) },
         { name := "amount", weight := 15/100, threshold := 9/10,
           enabled := true, outcome := some 1 }] /
      contribWeightSum
        [{ name := "velocity", weight := 15/100, threshold := 8/10,
           enabled := true, outcome := some (1/2) },
         { name := "amount", weight := 15/100, threshold := 9/10,
           enabled := true, outcome := some 1 }] :=
  (aggregate_score_is_weighted_average (7/10) ["velocity", "amount"] "tx1" _
    (by
      intro r hr
      simp only [List.mem_cons, List.mem_singleton] at hr
      rcases hr with rfl | rfl | h
      · norm_num
      · norm_num
      · cases h)
    (by
      intro r hr s hso
      simp only [List.mem_cons, List.mem_singleton] at hr
      rcases hr with rfl | rfl | h
      · obtain rfl : (1 : ℚ)/2 = s := Option.some.inj hso
        norm_num
      · obtain rfl : (1 : ℚ) = s := Option.some.inj hso
        norm_num
      · cases h)).2.2.1
    (by norm_num [totalWeight, analyzeLoop, List.foldl, loopStep])

/-- C2: a rule whose signal call raised (outcome `none`) is excluded from the
numerator and the denominator of the weighted aggregate and from the
triggered list: the full `FraudResult` is the same as if the rule were
absent, and in particular the failed rule does not dilute the average.
`analyze` itself is total by construction: the `except` clause absorbs the
per-signal error and the loop continues. -/
theorem failed_rule_excluded_from_aggregate
    (globalThreshold : ℚ) (cfgRules : List String) (txId : String)
    (pre post : List RuleEval) (r : RuleEval) (hr : r.outcome = none) :
    analyzeResult globalThreshold cfgRules txId (pre ++ r :: post) =
      analyzeResult globalThreshold cfgRules txId (pre ++ post) := by
  have hstep : ∀ acc, loopStep acc r = acc := by
    intro acc
    cases he : r.enabled <;> simp [loopStep, hr, he]
  have hloop : analyzeLoop (pre ++ r :: post) = analyzeLoop (pre ++ post) := by
    unfold analyzeLoop
    rw [List.foldl_append, List.foldl_append, List.foldl_cons, hstep]
  simp [analyzeResult, rawRiskScore, totalWeightedScore, totalWeight,
    confidenceOf, triggeredRules, hloop]

/-- C2 witness: one failing rule, compared with the empty rule list. -/
theorem failed_rule_excluded_from_aggregate_witness :
    analyzeResult (7/10) ["velocity"] "tx1"
        [{ name := "location", weight := 15/100, threshold := 7/10,
           enabled := true, outcome := none }] =
      analyzeResult (7/10) ["velocity"] "tx1" [] :=
  failed_rule_excluded_from_aggregate (7/10) ["velocity"] "tx1" [] []
    { name := "location", weight := 15/100, threshold := 7/10,
      enabled := true, outcome := none } rfl

/-- C8: the returned `risk_score` and `confidence` both lie in `[0,1]`, and
`confidence` is `min(triggered_count / configured_rule_count, 1.0)` when the
configured rule-name list is nonempty (and `0.0` when it is empty), where
`triggered_count` counts the rules whose raw score met or exceeded their
threshold. -/
theorem fraud_result_bounds_and_confidence
    (globalThreshold : ℚ) (cfgRules : List String) (txId : String)
    (rs : List RuleEval)
    (hw : ∀ r ∈ rs, 0 ≤ r.weight)
    (hs : ∀ r ∈ rs, ∀ s, r.outcome = some s → 0 ≤ s ∧ s ≤ 1) :
    0 ≤ (analyzeResult globalThreshold cfgRules txId rs).riskScore ∧
    (analyzeResult globalThreshold cfgRules txId rs).riskScore ≤ 1 ∧
    0 ≤ (analyzeResult globalThreshold cfgRules txId rs).confidence ∧
    (analyzeResult globalThreshold cfgRules txId rs).confidence ≤ 1 ∧
    (cfgRules ≠ [] →
      (analyzeResult globalThreshold cfgRules txId rs).confidence =
        min ((((triggeredRules rs).length : ℚ)) / ((cfgRules.length : ℚ))) 1) ∧
    (cfgRules = [] →
      (analyzeResult globalThreshold cfgRules txId rs).confidence = 0) := by
  have hraw : 0 ≤ rawRiskScore rs := by
    unfold rawRiskScore
    by_cases hpos : totalWeight rs > 0
    · rw [if_pos hpos]
      have h1 : 0 ≤ totalWeightedScore rs := by
        rw [totalWeightedScore_eq]
        exact contribScoreSum_nonneg rs hw hs
      exact div_nonneg h1 (le_of_lt hpos)
    · rw [if_neg hpos]
  refine ⟨?_, ?_, ?_, ?_, ?_, ?_⟩
  · exact le_min hraw (by norm_num)
  · exact min_le_right _ _
  · simp only [analyzeResult, confidenceOf]
    by_cases hc : cfgRules ≠ []
    · rw [if_pos hc]
      refine le_min (div_nonneg ?_ ?_) (by norm_num)
      · exact_mod_cast Nat.zero_le _
      · exact_mod_cast Nat.zero_le _
    · rw [if_neg hc]
  · simp only [analyzeResult, confidenceOf]
    by_cases hc : cfgRules ≠ []
    · rw [if_pos hc]
      exact min_le_right _ _
    · rw [if_neg hc]; norm_num
  · intro hne
    simp [analyzeResult, confidenceOf, hne]
  · intro hnil
    simp [analyzeResult, confidenceOf, hnil]

/-- C8 witness: a triggered rule among two configured rule names. -/
theorem fraud_result_bounds_and_confidence_witness :
    0 ≤ (analyzeResult (7/10) ["velocity", "amount"] "tx1"
        [{ name := "velocity", weight := 15/100, threshold := 8/10,
           enabled := true, outcome := some (9/10) }]).riskScore ∧
    (analyzeResult (7/10) ["velocity", "amount"] "tx1"
        [{ name := "velocity", weight := 15/100, threshold := 8/10,
           enabled := true, outcome := some (9/10) }]).riskScore ≤ 1 := by
  have h := fraud_result_bounds_and_confidence (7/10) ["velocity", "amount"] "tx1"
    [{ name := "velocity", weight := 15/100, threshold := 8/10,
       enabled := true, outcome := some (9/10) }]
    (by
      intro r hr
      simp only [List.mem_singleton] at hr
      subst hr
      norm_num)
    (by
      intro r hr s hso
      simp only [List.mem_singleton] at hr
      subst hr
      obtain rfl : (9 : ℚ)/10 = s := Option.some.inj hso
      norm_num)
  exact ⟨h.1, h.2.1⟩

/-! ## Velocity signal (`algorithms/velocity.py`, `VelocityAlgorithm.analyze`) -/

structure VelocityConfig where
  timeWindow : ℕ
  maxTransactions : ℕ
  maxAmount : ℚ
deriving Repr, DecidableEq

/-- One stored `(amount, timestamp)` event of a user's transaction history;
the timestamp is epoch seconds. -/
structure VEvent where
  amount : ℚ
  timestamp : ℚ
deriving Repr, DecidableEq

/-- `recent_transactions` (lines 37-40): the events with
`(now - tx.timestamp).total_seconds() * 1000 <= time_window * 60 * 1000`. -/
def recentTransactions (hist : List VEvent) (now : ℚ) (timeWindow : ℕ) : List VEvent :=
  hist.filter fun tx => (now - tx.timestamp) * 1000 ≤ (timeWindow : ℚ) * 60 * 1000

/-- The score computed by `VelocityAlgorithm.analyze` (lines 27-56) for a
transaction with timestamp `now` and amount `amount`, given the user's
stored history. -/
def velocityScore (cfg : VelocityConfig) (hist : List VEvent) (now amount : ℚ) : ℚ :=
  let recent := recentTransactions hist now cfg.timeWindow
  let transactionCount : ℚ := (recent.length : ℚ) + 1
  let totalAmount : ℚ := (recent.map VEvent.amount).sum + amount
  let countRisk := min (transactionCount / (cfg.maxTransactions : ℚ)) 1
  let amountRisk := min (totalAmount / cfg.maxAmount) 1
  let velocityRiskScore := (countRisk + amountRisk) / 2
  min velocityRiskScore 1

/-- `_add_transaction` (lines 58-71): append the event, then prune with the
wall clock: keep events with `tx.timestamp.timestamp() > wall_now - time_window * 60`. -/
def addTransaction (cfg : VelocityConfig) (hist : List VEvent) (e : VEvent)
    (wallNow : ℚ) : List VEvent :=
  (hist ++ [e]).filter fun tx => tx.timestamp > wallNow - (cfg.timeWindow : ℚ) * 60

/-- The velocity configuration built in `FraudDetector._initialize_algorithms`
(fraud_detector.py lines 36-41): window 60 minutes, `max_transactions = 10`,
`max_amount = 5000.0`. -/
def detectorVelocityConfig : VelocityConfig :=
  { timeWindow := 60, maxTransactions := 10, maxAmount := 5000 }

/-- The outer `min(velocity_score, 1.0)` never bites: both risk halves are
already at most 1, so the returned value is exactly the average. -/
theorem velocityScore_eq_avg (cfg : VelocityConfig) (hist : List VEvent)
    (now amount : ℚ) :
    velocityScore cfg hist now amount =
      (min ((((recentTransactions hist now cfg.timeWindow).length : ℚ) + 1) /
            (cfg.maxTransactions : ℚ)) 1 +
       min ((((recentTransactions hist now cfg.timeWindow).map VEvent.amount).sum + amount) /
            cfg.maxAmount) 1) / 2 := by
  simp only [velocityScore]
  apply min_eq_left
  have h1 := min_le_right ((((recentTransactions hist now cfg.timeWindow).length : ℚ) + 1) /
    (cfg.maxTransactions : ℚ)) 1
  have h2 := min_le_right ((((recentTransactions hist now cfg.timeWindow).map VEvent.amount).sum + amount) /
    cfg.maxAmount) 1
  linarith

/-- C4: the velocity contribution equals the average of
`count_risk = min((count+1)/max_transactions, 1)` and
`amount_risk = min((sum+amount)/max_amount, 1)`, with `count` and `sum`
taken over exactly the stored events inside the trailing window, and an
event strictly outside the window at analysis time has no effect on the
score of that call. -/
theorem velocity_score_spec (cfg : VelocityConfig) (hist : List VEvent)
    (now amount : ℚ) (hmt : 0 < cfg.maxTransactions) (hma : 0 < cfg.maxAmount) :
    velocityScore cfg hist now amount =
      (min ((((recentTransactions hist now cfg.timeWindow).length : ℚ) + 1) /
            (cfg.maxTransactions : ℚ)) 1 +
       min ((((recentTransactions hist now cfg.timeWindow).map VEvent.amount).sum + amount) /
            cfg.maxAmount) 1) / 2 ∧
    (∀ pre post (e : VEvent),
      (now - e.timestamp) * 1000 > (cfg.timeWindow : ℚ) * 60 * 1000 →
      velocityScore cfg (pre ++ e :: post) now amount =
        velocityScore cfg (pre ++ post) now amount) := by
  refine ⟨velocityScore_eq_avg cfg hist now amount, ?_⟩
  intro pre post e he
  have hpe : ¬((now - e.timestamp) * 1000 ≤ (cfg.timeWindow : ℚ) * 60 * 1000) :=
    not_le.mpr he
  have hfilter : recentTransactions (pre ++ e :: post) now cfg.timeWindow =
      recentTransactions (pre ++ post) now cfg.timeWindow := by
    simp only [recentTransactions, List.filter_append, List.filter_cons,
      decide_eq_true_eq, hpe, if_false]
  rw [velocityScore_eq_avg cfg (pre ++ e :: post) now amount,
    velocityScore_eq_avg cfg (pre ++ post) now amount, hfilter]

/-- C4 witness: empty history, the detector's velocity configuration. -/
theorem velocity_score_spec_witness :
    velocityScore detectorVelocityConfig [] 0 100 =
      (min ((((recentTransactions [] 0 detectorVelocityConfig.timeWindow).length : ℚ) + 1) /
            (detectorVelocityConfig.maxTransactions : ℚ)) 1 +
       min ((((recentTransactions [] 0 detectorVelocityConfig.timeWindow).map VEvent.amount).sum + 100) /
            detectorVelocityConfig.maxAmount) 1) / 2 :=
  (velocity_score_spec detectorVelocityConfig [] 0 100
    (by norm_num [detectorVelocityConfig]) (by norm_num [detectorVelocityConfig])).1

/-- Ten prior transactions of amount 100, all carrying the same timestamp. -/
def tenPriorEvents (ts : ℚ) : List VEvent :=
  [⟨100, ts⟩, ⟨100, ts⟩, ⟨100, ts⟩, ⟨100, ts⟩, ⟨100, ts⟩,
   ⟨100, ts⟩, ⟨100, ts⟩, ⟨100, ts⟩, ⟨100, ts⟩, ⟨100, ts⟩]

/-- C5 counterexample: with the detector's configuration
(`max_transactions = 10`, `max_amount = 5000.0`), ten prior transactions of
100 inside the window, and a next transaction of the same amount 100, the
velocity contribution is `0.61`, not at least `0.95`: the amount-risk half
of the average dilutes the saturated count risk. -/
theorem velocity_scenario_counterexample :
    velocityScore detectorVelocityConfig (tenPriorEvents 0) 0 100 = 61/100 ∧
    ¬(velocityScore detectorVelocityConfig (tenPriorEvents 0) 0 100 ≥ 95/100) := by
  have h : velocityScore detectorVelocityConfig (tenPriorEvents 0) 0 100 = 61/100 := by
    norm_num [velocityScore, recentTransactions, tenPriorEvents,
      detectorVelocityConfig, List.filter, min_def]
  refine ⟨h, ?_⟩
  rw [h]
  norm_num

/-- C5 amended: in the ten-prior-100-dollar scenario under the detector's
configuration, `count_risk` saturates at 1 and the contribution equals
`(1 + min((1000+a)/5000, 1))/2` for arriving amount `a`; it is at least
`0.6`, reaches `0.95` only when `a ≥ 3500`, and the `velocity` rule is
triggered whenever its threshold is at most that contribution. -/
theorem velocity_scenario_amended (now ts a thr : ℚ)
    (hwin : now - ts ≤ 3600) (ha : 0 ≤ a) :
    velocityScore detectorVelocityConfig (tenPriorEvents ts) now a =
      (1 + min ((1000 + a) / 5000) 1) / 2 ∧
    velocityScore detectorVelocityConfig (tenPriorEvents ts) now a ≥ 3/5 ∧
    (a ≥ 3500 → velocityScore detectorVelocityConfig (tenPriorEvents ts) now a ≥ 95/100) ∧
    (thr ≤ velocityScore detectorVelocityConfig (tenPriorEvents ts) now a →
      "velocity" ∈ triggeredRules
        [{ name := "velocity", weight := 15/100, threshold := thr, enabled := true,
           outcome := some (velocityScore detectorVelocityConfig (tenPriorEvents ts) now a) }]) := by
  have hrec : recentTransactions (tenPriorEvents ts) now
      detectorVelocityConfig.timeWindow = tenPriorEvents ts := by
    simp only [recentTransactions]
    apply List.filter_eq_self.mpr
    intro e he
    have hets : e.timestamp = ts := by
      simp only [tenPriorEvents, List.mem_cons, List.not_mem_nil, or_false] at he
      rcases he with rfl|rfl|rfl|rfl|rfl|rfl|rfl|rfl|rfl|rfl <;> rfl
    simp only [decide_eq_true_eq, hets, detectorVelocityConfig]
    push_cast
    linarith
  have hlen : (((tenPriorEvents ts).length : ℚ)) = 10 := by
    simp [tenPriorEvents]
  have hsum : ((tenPriorEvents ts).map VEvent.amount).sum = (1000 : ℚ) := by
    norm_num [tenPriorEvents]
  have hproj1 : ((detectorVelocityConfig.maxTransactions : ℚ)) = 10 := by
    norm_num [detectorVelocityConfig]
  have hproj2 : detectorVelocityConfig.maxAmount = 5000 := by
    norm_num [detectorVelocityConfig]
  have hmain : velocityScore detectorVelocityConfig (tenPriorEvents ts) now a =
      (1 + min ((1000 + a) / 5000) 1) / 2 := by
    rw [velocityScore_eq_avg, hrec, hlen, hsum, hproj1, hproj2,
      min_eq_right (by norm_num : (1:ℚ) ≤ (10 + 1)/10)]
  have hmlb : (1 : ℚ)/5 ≤ min ((1000 + a) / 5000) 1 := by
    apply le_min
    · rw [le_div_iff (by norm_num : (0:ℚ) < 5000)]
      linarith
    · norm_num
  refine ⟨hmain, ?_, ?_, ?_⟩
  · rw [hmain]
    have := min_le_right ((1000 + a) / 5000) 1
    linarith
  · intro h3500
    rw [hmain]
    have h910 : (9 : ℚ)/10 ≤ min ((1000 + a) / 5000) 1 := by
      apply le_min
      · rw [le_div_iff (by norm_num : (0:ℚ) < 5000)]
        linarith
      · norm_num
    linarith
  · intro hthr
    simp only [triggeredRules, analyzeLoop, List.foldl, loopStep, if_true,
      ge_iff_le, hthr, ite_true]
    simp

/-- C5 amended witness: an arriving amount of 3500 reaches `0.95`. -/
theorem velocity_scenario_amended_witness :
    velocityScore detectorVelocityConfig (tenPriorEvents 0) 0 3500 ≥ 95/100 :=
  (velocity_scenario_amended 0 0 3500 (8/10) (by norm_num) (by norm_num)).2.2.1
    (by norm_num)

/-! ## Amount signal (`algorithms/amount.py`, `AmountAlgorithm.analyze`) -/

structure AmountConfig where
  suspiciousThreshold : ℚ
  highRiskThreshold : ℚ
  currencyMultipliers : List (String × ℚ)
deriving Repr, DecidableEq

/-- `self.config.currency_multipliers.get(currency, 1.0)`. -/
def lookupMultiplier (ms : List (String × ℚ)) (c : String) : ℚ :=
  match ms.find? (fun p => p.1 = c) with
  | some p => p.2
  | none => 1

/-- `normalized_amount = amount * multiplier`, with
`currency = transaction.currency or 'USD'` (an empty currency string falls
back to `'USD'`). -/
def normalizedAmount (cfg : AmountConfig) (amount : ℚ) (currency : String) : ℚ :=
  let c := if currency = "" then "USD" else currency
  amount * lookupMultiplier cfg.currencyMultipliers c

/-- The banded score of `AmountAlgorithm.analyze` (lines 40-50) as a function
of the normalized amount. -/
def amountScore (cfg : AmountConfig) (na : ℚ) : ℚ :=
  if na ≥ cfg.highRiskThreshold then 1
  else if na ≥ cfg.suspiciousThreshold then
    1/2 + ((na - cfg.suspiciousThreshold) /
      (cfg.highRiskThreshold - cfg.suspiciousThreshold)) * (1/2)
  else (na / cfg.suspiciousThreshold) * (1/2)

def amountAnalyze (cfg : AmountConfig) (amount : ℚ) (currency : String) : ℚ :=
  amountScore cfg (normalizedAmount cfg amount currency)

/-- The amount configuration built in `FraudDetector._initialize_algorithms`
(fraud_detector.py lines 44-53). -/
def detectorAmountConfig : AmountConfig :=
  { suspiciousThreshold := 1000
    highRiskThreshold := 5000
    currencyMultipliers :=
      [("USD", 1), ("EUR", 11/10), ("GBP", 13/10), ("JPY", 7/1000)] }

theorem amountScore_of_lt_susp (cfg : AmountConfig) (na : ℚ)
    (hsh : cfg.suspiciousThreshold < cfg.highRiskThreshold)
    (h : na < cfg.suspiciousThreshold) :
    amountScore cfg na = (na / cfg.suspiciousThreshold) * (1/2) := by
  unfold amountScore
  rw [if_neg (by push_neg; linarith), if_neg (by push_neg; exact h)]

theorem amountScore_of_mid (cfg : AmountConfig) (na : ℚ)
    (h1 : cfg.suspiciousThreshold ≤ na) (h2 : na < cfg.highRiskThreshold) :
    amountScore cfg na =
      1/2 + ((na - cfg.suspiciousThreshold) /
        (cfg.highRiskThreshold - cfg.suspiciousThreshold)) * (1/2) := by
  unfold amountScore
  rw [if_neg (by push_neg; exact h2), if_pos h1]

theorem amountScore_of_high (cfg : AmountConfig) (na : ℚ)
    (h : cfg.highRiskThreshold ≤ na) :
    amountScore cfg na = 1 := by
  unfold amountScore
  rw [if_pos h]

theorem amountScore_monotone (cfg : AmountConfig)
    (hs : 0 < cfg.suspiciousThreshold)
    (hsh : cfg.suspiciousThreshold < cfg.highRiskThreshold) :
    ∀ x y : ℚ, x ≤ y → amountScore cfg x ≤ amountScore cfg y := by
  intro x y hxy
  have hhs : (0:ℚ) < cfg.highRiskThreshold - cfg.suspiciousThreshold := by linarith
  rcases le_or_lt cfg.highRiskThreshold x with hx1 | hx1
  · rw [amountScore_of_high cfg x hx1, amountScore_of_high cfg y (by linarith)]
  · rcases le_or_lt cfg.suspiciousThreshold x with hx2 | hx2
    · rcases le_or_lt cfg.highRiskThreshold y with hy1 | hy1
      · rw [amountScore_of_mid cfg x hx2 hx1, amountScore_of_high cfg y hy1]
        have hfrac : (x - cfg.suspiciousThreshold) /
            (cfg.highRiskThreshold - cfg.suspiciousThreshold) ≤ 1 :=
          (div_le_one hhs).mpr (by linarith)
        linarith
      · rw [amountScore_of_mid cfg x hx2 hx1, amountScore_of_mid cfg y (by linarith) hy1]
        have hfrac : (x - cfg.suspiciousThreshold) /
            (cfg.highRiskThreshold - cfg.suspiciousThreshold) ≤
            (y - cfg.suspiciousThreshold) /
            (cfg.highRiskThreshold - cfg.suspiciousThreshold) := by
          gcongr
        linarith
    · rcases le_or_lt cfg.suspiciousThreshold y with hy2 | hy2
      · have hxle : amountScore cfg x ≤ 1/2 := by
          rw [amountScore_of_lt_susp cfg x hsh hx2]
          have : x / cfg.suspiciousThreshold ≤ 1 := (div_le_one hs).mpr (le_of_lt hx2)
          linarith
        rcases le_or_lt cfg.highRiskThreshold y with hy1 | hy1
        · rw [amountScore_of_high cfg y hy1]; linarith
        · rw [amountScore_of_mid cfg y hy2 hy1]
          have hfrac : 0 ≤ (y - cfg.suspiciousThreshold) /
              (cfg.highRiskThreshold - cfg.suspiciousThreshold) :=
            div_nonneg (by linarith) (le_of_lt hhs)
          linarith
      · rw [amountScore_of_lt_susp cfg x hsh hx2, amountScore_of_lt_susp cfg y hsh hy2]
        have hfrac : x / cfg.suspiciousThreshold ≤ y / cfg.suspiciousThreshold := by
          gcongr
        linarith

theorem amountScore_at_susp (cfg : AmountConfig)
    (hsh : cfg.suspiciousThreshold < cfg.highRiskThreshold) :
    amountScore cfg cfg.suspiciousThreshold = 1/2 := by
  rw [amountScore_of_mid cfg cfg.suspiciousThreshold le_rfl hsh]
  simp

theorem amountScore_contAt_susp (cfg : AmountConfig)
    (hs : 0 < cfg.suspiciousThreshold)
    (hsh : cfg.suspiciousThreshold < cfg.highRiskThreshold)
    (ε : ℚ) (hε : 0 < ε) :
    ∃ δ : ℚ, 0 < δ ∧ ∀ x : ℚ, |x - cfg.suspiciousThreshold| < δ →
      |amountScore cfg x - amountScore cfg cfg.suspiciousThreshold| < ε := by
  set s := cfg.suspiciousThreshold with hsdef
  set hi := cfg.highRiskThreshold with hhdef
  have hhs : (0:ℚ) < hi - s := by linarith
  refine ⟨min (hi - s) (min (ε * s) (ε * (hi - s))), ?_, ?_⟩
  · exact lt_min hhs (lt_min (mul_pos hε hs) (mul_pos hε hhs))
  intro x hx
  have hd1 : |x - s| < hi - s := lt_of_lt_of_le hx (min_le_left _ _)
  have hd2 : |x - s| < ε * s :=
    lt_of_lt_of_le hx (le_trans (min_le_right _ _) (min_le_left _ _))
  have hd3 : |x - s| < ε * (hi - s) :=
    lt_of_lt_of_le hx (le_trans (min_le_right _ _) (min_le_right _ _))
  have habs := abs_lt.mp hd1
  rcases le_or_lt s x with hxs | hxs
  · have hxh : x < hi := by linarith [habs.2]
    have key : amountScore cfg x - amountScore cfg s = (x - s) / (hi - s) * (1/2) := by
      rw [amountScore_of_mid cfg x hxs hxh, amountScore_at_susp cfg hsh]
      ring
    rw [key, abs_of_nonneg (mul_nonneg (div_nonneg (by linarith) (le_of_lt hhs)) (by norm_num))]
    rw [div_mul_eq_mul_div, div_lt_iff hhs]
    have hle : x - s ≤ |x - s| := le_abs_self _
    have hpos : 0 < ε * (hi - s) := mul_pos hε hhs
    nlinarith
  · have key : amountScore cfg x - amountScore cfg s = (x - s) / s * (1/2) := by
      rw [amountScore_of_lt_susp cfg x hsh hxs, amountScore_at_susp cfg hsh]
      field_simp
      ring
    have hkn : (x - s) / s * (1/2) ≤ 0 :=
      mul_nonpos_of_nonpos_of_nonneg
        (div_nonpos_of_nonpos_of_nonneg (by linarith) (le_of_lt hs)) (by norm_num)
    rw [key, abs_of_nonpos hkn]
    have heq : -((x - s) / s * (1/2)) = (s - x) / s * (1/2) := by ring
    rw [heq, div_mul_eq_mul_div, div_lt_iff hs]
    have hle : s - x ≤ |x - s| := by
      have := neg_abs_le (x - s)
      linarith [habs.1]
    have hpos : 0 < ε * s := mul_pos hε hs
    nlinarith

theorem amountScore_contAt_high (cfg : AmountConfig)
    (hs : 0 < cfg.suspiciousThreshold)
    (hsh : cfg.suspiciousThreshold < cfg.highRiskThreshold)
    (ε : ℚ) (hε : 0 < ε) :
    ∃ δ : ℚ, 0 < δ ∧ ∀ x : ℚ, |x - cfg.highRiskThreshold| < δ →
      |amountScore cfg x - amountScore cfg cfg.highRiskThreshold| < ε := by
  set s := cfg.suspiciousThreshold with hsdef
  set hi := cfg.highRiskThreshold with hhdef
  have hhs : (0:ℚ) < hi - s := by linarith
  refine ⟨min (hi - s) (ε * (hi - s)), ?_, ?_⟩
  · exact lt_min hhs (mul_pos hε hhs)
  intro x hx
  have hd1 : |x - hi| < hi - s := lt_of_lt_of_le hx (min_le_left _ _)
  have hd2 : |x - hi| < ε * (hi - s) := lt_of_lt_of_le hx (min_le_right _ _)
  have habs := abs_lt.mp hd1
  have hfh : amountScore cfg hi = 1 := amountScore_of_high cfg hi le_rfl
  rcases le_or_lt hi x with hxh | hxh
  · rw [amountScore_of_high cfg x hxh, hfh]
    simpa using hε
  · have hxs : s ≤ x := by linarith [habs.1]
    have key : amountScore cfg x - amountScore cfg hi = -((hi - x) / (hi - s) * (1/2)) := by
      rw [amountScore_of_mid cfg x hxs hxh, hfh]
      field_simp
      ring
    have hkn : amountScore cfg x - amountScore cfg hi ≤ 0 := by
      rw [key]
      have : 0 ≤ (hi - x) / (hi - s) * (1/2) :=
        mul_nonneg (div_nonneg (by linarith) (le_of_lt hhs)) (by norm_num)
      linarith
    rw [abs_of_nonpos hkn, key]
    have heq : -(-((hi - x) / (hi - s) * (1/2))) = (hi - x) / (hi - s) * (1/2) := by ring
    rw [heq, div_mul_eq_mul_div, div_lt_iff hhs]
    have hle : hi - x ≤ |x - hi| := by
      have := neg_abs_le (x - hi)
      linarith
    have hpos : 0 < ε * (hi - s) := mul_pos hε hhs
    nlinarith

/-- C6: for configurations with `0 < suspicious < high_risk`, the amount
contribution as a function of the normalized amount (amount times the
currency multiplier, default 1.0 for unlisted currencies) is non-decreasing,
continuous at both threshold boundaries, and exactly 1.0 at and above the
high-risk threshold; with the detector's configuration, amount 15000 in USD
scores 1.0. -/
theorem amount_score_monotone_continuous (cfg : AmountConfig)
    (hs : 0 < cfg.suspiciousThreshold)
    (hsh : cfg.suspiciousThreshold < cfg.highRiskThreshold) :
    (∀ x y : ℚ, x ≤ y → amountScore cfg x ≤ amountScore cfg y) ∧
    (∀ ε : ℚ, 0 < ε → ∃ δ : ℚ, 0 < δ ∧ ∀ x : ℚ,
      |x - cfg.suspiciousThreshold| < δ →
      |amountScore cfg x - amountScore cfg cfg.suspiciousThreshold| < ε) ∧
    (∀ ε : ℚ, 0 < ε → ∃ δ : ℚ, 0 < δ ∧ ∀ x : ℚ,
      |x - cfg.highRiskThreshold| < δ →
      |amountScore cfg x - amountScore cfg cfg.highRiskThreshold| < ε) ∧
    (∀ na : ℚ, cfg.highRiskThreshold ≤ na → amountScore cfg na = 1) ∧
    amountAnalyze detectorAmountConfig 15000 "USD" = 1 := by
  refine ⟨amountScore_monotone cfg hs hsh,
    amountScore_contAt_susp cfg hs hsh,
    amountScore_contAt_high cfg hs hsh,
    fun na h => amountScore_of_high cfg na h, ?_⟩
  norm_num [amountAnalyze, amountScore, normalizedAmount, lookupMultiplier,
    detectorAmountConfig, List.find?]

/-- C6 witness: the detector's amount configuration satisfies the threshold
hypotheses, and the scenario amount 15000 USD scores 1.0. -/
theorem amount_score_monotone_continuous_witness :
    amountAnalyze detectorAmountConfig 15000 "USD" = 1 :=
  (amount_score_monotone_continuous detectorAmountConfig
    (by norm_num [detectorAmountConfig])
    (by norm_num [detectorAmountConfig])).2.2.2.2

/-! ## Device signal (`algorithms/device.py`, `DeviceAlgorithm.analyze`)

Wall-clock reads (`datetime.now()`) are modelled by a single `now` parameter
(epoch seconds) per call.  Optional transaction attributes that Python
treats as falsy when empty are modelled as `Option String` with `none` for
absent/empty.  Python raises `ZeroDivisionError` when
`_calculate_device_velocity` divides by a zero elapsed time; the rational
model returns 0 there, and no theorem below depends on that point. -/

structure DeviceConfig where
  enableFingerprinting : Bool
  suspiciousDeviceThreshold : ℕ
  newDeviceRiskMultiplier : ℚ
  deviceVelocityWindow : ℕ
  maxDevicesPerUser : ℕ
deriving Repr, DecidableEq

structure DeviceFingerprint where
  deviceId : String
  userAgent : String
  ipAddress : String
  screenResolution : Option String
  timezone : Option String
  language : Option String
  platform : Option String
  firstSeen : ℚ
  lastSeen : ℚ
  transactionCount : ℕ
  totalAmount : ℚ
  isTrusted : Bool
deriving Repr, DecidableEq

/-- The transaction attributes `DeviceAlgorithm` reads. -/
structure DTx where
  userId : String
  amount : ℚ
  deviceId : Option String
  ipAddress : Option String
  userAgent : Option String
  metaScreenResolution : Option String
  metaTimezone : Option String
  metaLanguage : Option String
  metaPlatform : Option String
deriving Repr, DecidableEq

/-- `self.device_fingerprints` and `self.user_devices`, as association
lists. A user's device set is a duplicate-free list. -/
structure DeviceState where
  deviceFingerprints : List (String × DeviceFingerprint)
  userDevices : List (String × List String)
deriving Repr, DecidableEq

def alistLookup {α : Type} (l : List (String × α)) (k : String) : Option α :=
  (l.find? fun p => p.1 = k).map Prod.snd

/-- `_create_fingerprint`. -/
def createFingerprint (t : DTx) (deviceId : String) (now : ℚ) : DeviceFingerprint :=
  { deviceId := deviceId
    userAgent := t.userAgent.getD ""
    ipAddress := t.ipAddress.getD ""
    screenResolution := t.metaScreenResolution
    timezone := t.metaTimezone
    language := t.metaLanguage
    platform := t.metaPlatform
    firstSeen := now
    lastSeen := now
    transactionCount := 1
    totalAmount := t.amount
    isTrusted := false }

/-- `_calculate_device_risk`: additive mismatch components, capped at 0.8. -/
def calculateDeviceRisk (existing current : DeviceFingerprint) : ℚ :=
  let r1 : ℚ := if existing.userAgent ≠ current.userAgent then 3/10 else 0
  let r2 : ℚ := r1 + (if existing.ipAddress ≠ current.ipAddress then 2/10 else 0)
  let r3 : ℚ := r2 + (if existing.screenResolution ≠ current.screenResolution then 1/10 else 0)
  let r4 : ℚ := r3 + (if existing.timezone ≠ current.timezone then 1/10 else 0)
  let r5 : ℚ := r4 + (if current.lastSeen - existing.lastSeen < 60 then 2/10 else 0)
  min r5 (8/10)

/-- `_calculate_device_velocity`: transactions per minute since first seen,
only while the elapsed time is inside the velocity window. -/
def calculateDeviceVelocity (cfg : DeviceConfig)
    (fps : List (String × DeviceFingerprint)) (deviceId : String) (now : ℚ) : ℚ :=
  match alistLookup fps deviceId with
  | none => 0
  | some fp =>
      let timeDiff := now - fp.firstSeen
      if timeDiff < (cfg.deviceVelocityWindow : ℚ) * 60 then
        (fp.transactionCount : ℚ) / (timeDiff / 60)
      else 0

/-- `_get_device_users`: every user whose device set contains the id. -/
def getDeviceUsers (userDevices : List (String × List String))
    (deviceId : String) : List String :=
  userDevices.filterMap fun p => if deviceId ∈ p.2 then some p.1 else none

/-- `_calculate_device_sharing_risk`: 0.5 when more than one user shares the
identifier, else 0. -/
def calculateDeviceSharingRisk (userDevices : List (String × List String))
    (deviceId : String) : ℚ :=
  if (getDeviceUsers userDevices deviceId).length > 1 then 1/2 else 0

/-- `_get_user_device_count`. -/
def getUserDeviceCount (userDevices : List (String × List String))
    (userId : String) : ℕ :=
  ((alistLookup userDevices userId).getD []).length

/-- `_add_user_device`: set insertion into the user's device set. -/
def addUserDevice (userDevices : List (String × List String))
    (userId deviceId : String) : List (String × List String) :=
  match alistLookup userDevices userId with
  | none => userDevices ++ [(userId, [deviceId])]
  | some _ =>
      userDevices.map fun p =>
        if p.1 = userId then
          (p.1, if deviceId ∈ p.2 then p.2 else p.2 ++ [deviceId])
        else p

/-- `_update_device_fingerprint`. -/
def updateDeviceFingerprint (fps : List (String × DeviceFingerprint))
    (deviceId : String) (now : ℚ) (amount : ℚ) : List (String × DeviceFingerprint) :=
  fps.map fun p =>
    if p.1 = deviceId then
      (p.1, { p.2 with lastSeen := now,
                       transactionCount := p.2.transactionCount + 1,
                       totalAmount := p.2.totalAmount + amount })
    else p

/-- The tail of `DeviceAlgorithm.analyze` (lines 79-88): device-velocity
bonus, sharing risk, final clamp. -/
def deviceFinish (cfg : DeviceConfig) (base : ℚ) (s : DeviceState)
    (deviceId : String) (now : ℚ) : ℚ × DeviceState :=
  let vel := calculateDeviceVelocity cfg s.deviceFingerprints deviceId now
  let r2 := base + (if vel > (cfg.suspiciousDeviceThreshold : ℚ) then 4/10 else 0)
  let r3 := r2 + calculateDeviceSharingRisk s.userDevices deviceId
  (min r3 1, s)

/-- `DeviceAlgorithm.analyze` (lines 47-88).  `genId` stands for
`_generate_device_id`, whose Python `hash` of the user agent / address /
screen data is process-salted and therefore kept abstract; every theorem
below uses transactions with an explicit `device_id`, for which `genId` is
never consulted. -/
def deviceAnalyze (cfg : DeviceConfig) (genId : DTx → String)
    (s : DeviceState) (t : DTx) (now : ℚ) : ℚ × DeviceState :=
  if t.deviceId = none ∧ t.userAgent = none ∧ t.ipAddress = none then (0, s)
  else
    let deviceId := t.deviceId.getD (genId t)
    let fp := createFingerprint t deviceId now
    match alistLookup s.deviceFingerprints deviceId with
    | none =>
        let base : ℚ :=
          if getUserDeviceCount s.userDevices t.userId ≥ cfg.maxDevicesPerUser
          then 6/10 else 3/10
        let s1 : DeviceState :=
          { deviceFingerprints := s.deviceFingerprints ++ [(deviceId, fp)]
            userDevices := addUserDevice s.userDevices t.userId deviceId }
        deviceFinish cfg base s1 deviceId now
    | some existing =>
        let base := calculateDeviceRisk existing fp
        let s1 : DeviceState :=
          { deviceFingerprints := updateDeviceFingerprint s.deviceFingerprints deviceId now t.amount
            userDevices := s.userDevices }
        deviceFinish cfg base s1 deviceId now

/-- C9: when an already-known device id is used again — in particular by a
new, second user — `analyze` takes the existing-fingerprint branch, which
never calls `_add_user_device`; the `user_devices` reverse index is
unchanged, the user set computed for the device still has its single
member, and the sharing-risk component of that call
(`_calculate_device_sharing_risk` on the unchanged index) is 0. -/
theorem existing_device_preserves_user_index (cfg : DeviceConfig)
    (genId : DTx → String) (s : DeviceState) (t : DTx) (now : ℚ)
    (d : String) (fp : DeviceFingerprint) (a : String)
    (hd : t.deviceId = some d)
    (hfp : alistLookup s.deviceFingerprints d = some fp)
    (husers : getDeviceUsers s.userDevices d = [a]) :
    (deviceAnalyze cfg genId s t now).2.userDevices = s.userDevices ∧
    getDeviceUsers (deviceAnalyze cfg genId s t now).2.userDevices d = [a] ∧
    calculateDeviceSharingRisk (deviceAnalyze cfg genId s t now).2.userDevices d = 0 := by
  have hguard : ¬(t.deviceId = none ∧ t.userAgent = none ∧ t.ipAddress = none) := by
    intro h
    rw [hd] at h
    exact Option.some_ne_none d h.1
  have hud : (deviceAnalyze cfg genId s t now).2.userDevices = s.userDevices := by
    unfold deviceAnalyze
    rw [if_neg hguard]
    simp only [hd, Option.getD_some, hfp]
    rfl
  refine ⟨hud, hud ▸ husers, ?_⟩
  rw [hud]
  unfold calculateDeviceSharingRisk
  rw [husers]
  simp

/-- The device configuration built in `FraudDetector._initialize_algorithms`
(fraud_detector.py lines 67-73). -/
def detectorDeviceConfig : DeviceConfig :=
  { enableFingerprinting := true
    suspiciousDeviceThreshold := 5
    newDeviceRiskMultiplier := 3/2
    deviceVelocityWindow := 60
    maxDevicesPerUser := 5 }

/-- User A's transaction on device `d1` (the repository's
`test_device_sharing_detection` scenario, epoch time 0). -/
def txOnD1A : DTx :=
  { userId := "A", amount := 100, deviceId := some "d1",
    ipAddress := some "ip", userAgent := some "ua",
    metaScreenResolution := none, metaTimezone := none,
    metaLanguage := none, metaPlatform := none }

/-- User B's transaction on the same device `d1`. -/
def txOnD1B : DTx :=
  { userId := "B", amount := 200, deviceId := some "d1",
    ipAddress := some "ip", userAgent := some "ua",
    metaScreenResolution := none, metaTimezone := none,
    metaLanguage := none, metaPlatform := none }

/-- The fingerprint stored by A's first call at time 0. -/
def fingerprintD1 : DeviceFingerprint := createFingerprint txOnD1A "d1" 0

/-- The device-signal state after A's first call: `d1` registered, and the
reverse index maps only A to `d1`. -/
def stateAfterA : DeviceState :=
  { deviceFingerprints := [("d1", fingerprintD1)]
    userDevices := [("A", ["d1"])] }

/-- The counterfactual state in which the same fingerprint for `d1` had been
created by B alone: the identifier is unshared. -/
def stateUnsharedB : DeviceState :=
  { deviceFingerprints := [("d1", fingerprintD1)]
    userDevices := [("B", ["d1"])] }

/-- C9 witness: device `d1` first seen with user `A`, then used by `B` two
hours later: the reverse index is unchanged. -/
theorem existing_device_preserves_user_index_witness :
    (deviceAnalyze detectorDeviceConfig (fun _ => "") stateAfterA txOnD1B
      7200).2.userDevices = [("A", ["d1"])] :=
  (existing_device_preserves_user_index detectorDeviceConfig (fun _ => "")
    stateAfterA txOnD1B 7200 "d1" fingerprintD1 "A" rfl rfl rfl).1

/-- C7 is false of the code: when the device id `d1` first used by A is used
again by B, the call's contribution is identical to what the same call
returns from the unshared counterfactual state (fingerprint owned by B
alone), because `_add_user_device` only runs for never-seen identifiers and
so `_get_device_users` still finds a single user; in this concrete run both
contributions are 0, which also refutes the claimed `> 0.4`. -/
theorem device_sharing_risk_never_fires :
    (deviceAnalyze detectorDeviceConfig (fun _ => "") stateAfterA txOnD1B 7200).1 =
      (deviceAnalyze detectorDeviceConfig (fun _ => "") stateUnsharedB txOnD1B 7200).1 ∧
    (deviceAnalyze detectorDeviceConfig (fun _ => "") stateAfterA txOnD1B 7200).1 = 0 ∧
    ¬((deviceAnalyze detectorDeviceConfig (fun _ => "") stateAfterA txOnD1B 7200).1 > 2/5) := by
  have hA : (deviceAnalyze detectorDeviceConfig (fun _ => "") stateAfterA txOnD1B 7200).1 = 0 := by
    norm_num [deviceAnalyze, deviceFinish, calculateDeviceRisk,
      calculateDeviceVelocity, calculateDeviceSharingRisk, getDeviceUsers,
      updateDeviceFingerprint, alistLookup, createFingerprint,
      detectorDeviceConfig, stateAfterA, txOnD1B, fingerprintD1, txOnD1A,
      List.find?, min_def, Option.some_ne_none, List.filterMap_cons,
      List.filterMap_nil, List.mem_cons, List.not_mem_nil]
  have hB : (deviceAnalyze detectorDeviceConfig (fun _ => "") stateUnsharedB txOnD1B 7200).1 = 0 := by
    norm_num [deviceAnalyze, deviceFinish, calculateDeviceRisk,
      calculateDeviceVelocity, calculateDeviceSharingRisk, getDeviceUsers,
      updateDeviceFingerprint, alistLookup, createFingerprint,
      detectorDeviceConfig, stateUnsharedB, txOnD1B, fingerprintD1, txOnD1A,
      List.find?, min_def, Option.some_ne_none, List.filterMap_cons,
      List.filterMap_nil, List.mem_cons, List.not_mem_nil]
  refine ⟨hA.trans hB.symm, hA, ?_⟩
  rw [hA]
  norm_num

/-! ## Data model (`models.py`)

`Location` (models.py lines 10-17) has exactly five fields; in particular it
has NO timestamp field.  `Transaction.timestamp` is a datetime, modelled as
rational epoch seconds plus the derived calendar fields the time signal
reads. -/

structure Location where
  lat : ℚ
  lng : ℚ
  country : Option String := none
  city : Option String := none
  state : Option String := none
deriving Repr, DecidableEq

/-! ## Time signal (`algorithms/time.py`, `TimeAlgorithm.analyze`) -/

structure TimeConfig where
  suspiciousHours : List ℕ
  weekendRiskMultiplier : ℚ
  holidayRiskMultiplier : ℚ
  timezoneThreshold : ℤ
  enableHolidayDetection : Bool
  customHolidays : List String
deriving Repr, DecidableEq

structure TimePattern where
  hour : ℕ
  dayOfWeek : ℕ
  isWeekend : Bool
  isHoliday : Bool
  timezone : String
deriving Repr, DecidableEq

/-- The calendar data `TimeAlgorithm` reads from a datetime:
`hour`, Python `weekday()` (0 = Monday … 6 = Sunday), and
`strftime('%Y-%m-%d')`. -/
structure TTimestamp where
  hour : ℕ
  pyWeekday : ℕ
  dateStr : String
deriving Repr, DecidableEq

/-- The transaction attributes `TimeAlgorithm` reads. -/
structure TTx where
  userId : String
  location : Option Location
  metaTimezone : Option String
  ts : TTimestamp
deriving Repr, DecidableEq

/-- `_get_country_timezone`: the country-to-timezone table with `'UTC'` as
default. -/
def countryTimezone (c : String) : String :=
  if c = "US" then "America/New_York"
  else if c = "GB" then "Europe/London"
  else if c = "DE" then "Europe/Berlin"
  else if c = "FR" then "Europe/Paris"
  else if c = "JP" then "Asia/Tokyo"
  else if c = "AU" then "Australia/Sydney"
  else if c = "CA" then "America/Toronto"
  else if c = "BR" then "America/Sao_Paulo"
  else if c = "IN" then "Asia/Kolkata"
  else if c = "CN" then "Asia/Shanghai"
  else "UTC"

/-- The timezone-offset table of `_calculate_timezone_difference`
(`Asia/Kolkata` is the one fractional offset, 5.5). -/
def timezoneOffset (tz : String) : ℚ :=
  if tz = "UTC" then 0
  else if tz = "America/New_York" then -5
  else if tz = "Europe/London" then 0
  else if tz = "Europe/Berlin" then 1
  else if tz = "Europe/Paris" then 1
  else if tz = "Asia/Tokyo" then 9
  else if tz = "Australia/Sydney" then 10
  else if tz = "America/Toronto" then -5
  else if tz = "America/Sao_Paulo" then -3
  else if tz = "Asia/Kolkata" then 11/2
  else if tz = "Asia/Shanghai" then 8
  else 0

/-- Python `int()` truncates toward zero. -/
def ratTrunc (q : ℚ) : ℤ :=
  if 0 ≤ q then ⌊q⌋ else -⌊-q⌋

/-- `_calculate_timezone_difference`: `abs(int(offset1 - offset2))`. -/
def calculateTimezoneDifference (tz1 tz2 : String) : ℤ :=
  |ratTrunc (timezoneOffset tz1 - timezoneOffset tz2)|

/-- `_extract_timezone`: metadata timezone, else the country's timezone when
the location carries a truthy country code, else `'UTC'`. -/
def extractTimezone (t : TTx) : String :=
  match t.metaTimezone with
  | some tz => tz
  | none =>
      match t.location with
      | some loc =>
          match loc.country with
          | some c => if c ≠ "" then countryTimezone c else "UTC"
          | none => "UTC"
      | none => "UTC"

/-- `_get_timezone_from_location`: `None` unless the location carries a
truthy country code. -/
def getTimezoneFromLocation (loc : Location) : Option String :=
  match loc.country with
  | some c => if c ≠ "" then some (countryTimezone c) else none
  | none => none

/-- `_is_holiday`: custom-holiday dates first, then the built-in set
(initialised from the wall clock's current year, passed here as the
`holidays` date-string list). -/
def isHolidayCheck (cfg : TimeConfig) (holidays : List String)
    (dateStr : String) : Bool :=
  if !cfg.enableHolidayDetection then false
  else cfg.customHolidays.contains dateStr || holidays.contains dateStr

/-- `_analyze_time_pattern`: `day_of_week = weekday() + 1` (1 = Monday …
7 = Sunday), weekend means day 6 or 7. -/
def analyzeTimePattern (cfg : TimeConfig) (holidays : List String)
    (t : TTx) : TimePattern :=
  let dow := t.ts.pyWeekday + 1
  { hour := t.ts.hour
    dayOfWeek := dow
    isWeekend := decide (dow = 6 ∨ dow = 7)
    isHoliday := isHolidayCheck cfg holidays t.ts.dateStr
    timezone := extractTimezone t }

/-- `_analyze_user_time_pattern` (lines 92-115): `0.1` for a first
transaction, else a rarity penalty from the frequency of the same
`(hour, day_of_week)` pair. -/
def analyzeUserTimePattern (userPatterns : List TimePattern)
    (cur : TimePattern) : ℚ :=
  if userPatterns = [] then 1/10
  else
    let similar := userPatterns.filter fun p =>
      p.hour = cur.hour ∧ p.dayOfWeek = cur.dayOfWeek
    let freq : ℚ :=
      if userPatterns.length > 0 then
        (similar.length : ℚ) / (userPatterns.length : ℚ)
      else 0
    if freq < 1/10 then 3/10
    else if freq < 3/10 then 1/10
    else 0

/-- `_analyze_timezone_anomaly`: 0 without a location or without a derivable
expected timezone; otherwise 0.4 when the offset gap exceeds the
threshold. -/
def analyzeTimezoneAnomaly (cfg : TimeConfig) (t : TTx)
    (pat : TimePattern) : ℚ :=
  match t.location with
  | none => 0
  | some loc =>
      match getTimezoneFromLocation loc with
      | none => 0
      | some expected =>
          if pat.timezone ≠ "" then
            (if calculateTimezoneDifference expected pat.timezone >
                cfg.timezoneThreshold then 4/10 else 0)
          else 0

/-- `_store_user_time_pattern`: append, keep the most recent 100. -/
def storeUserTimePattern (ps : List TimePattern) (p : TimePattern) :
    List TimePattern :=
  let l := ps ++ [p]
  if l.length > 100 then l.drop (l.length - 100) else l

/-- `TimeAlgorithm.analyze` (lines 43-73) for one user, given the user's
stored pattern list. -/
def timeAnalyze (cfg : TimeConfig) (holidays : List String)
    (userPatterns : List TimePattern) (t : TTx) : ℚ × List TimePattern :=
  let pat := analyzeTimePattern cfg holidays t
  let r1 : ℚ := if pat.hour ∈ cfg.suspiciousHours then 4/10 else 0
  let r2 := r1 + (if pat.isWeekend then (2/10) * cfg.weekendRiskMultiplier else 0)
  let r3 := r2 + (if pat.isHoliday then (3/10) * cfg.holidayRiskMultiplier else 0)
  let r4 := r3 + analyzeUserTimePattern userPatterns pat
  let r5 := r4 + analyzeTimezoneAnomaly cfg t pat
  (min r5 1, storeUserTimePattern userPatterns pat)

theorem analyzeTimezoneAnomaly_nonneg (cfg : TimeConfig) (t : TTx)
    (pat : TimePattern) : 0 ≤ analyzeTimezoneAnomaly cfg t pat := by
  unfold analyzeTimezoneAnomaly
  split
  · norm_num
  · split
    · norm_num
    · split_ifs <;> norm_num

/-- C10: a user's very first analyzed transaction gets a time contribution
of at least 0.1: the user-pattern component alone is exactly 0.1 on an empty
pattern list, and the other components are non-negative (given the
non-negative multipliers the detector configures). -/
theorem first_transaction_time_risk_at_least_tenth (cfg : TimeConfig)
    (holidays : List String) (t : TTx)
    (hwm : 0 ≤ cfg.weekendRiskMultiplier)
    (hhm : 0 ≤ cfg.holidayRiskMultiplier) :
    1/10 ≤ (timeAnalyze cfg holidays [] t).1 := by
  simp only [timeAnalyze]
  refine le_min ?_ (by norm_num)
  have hup : analyzeUserTimePattern [] (analyzeTimePattern cfg holidays t) = 1/10 := by
    unfold analyzeUserTimePattern
    simp
  have h1 : (0:ℚ) ≤
      (if (analyzeTimePattern cfg holidays t).hour ∈ cfg.suspiciousHours
       then (4:ℚ)/10 else 0) := by
    split_ifs <;> norm_num
  have h2 : (0:ℚ) ≤
      (if (analyzeTimePattern cfg holidays t).isWeekend
       then (2:ℚ)/10 * cfg.weekendRiskMultiplier else 0) := by
    split_ifs
    · exact mul_nonneg (by norm_num) hwm
    · exact le_refl 0
  have h3 : (0:ℚ) ≤
      (if (analyzeTimePattern cfg holidays t).isHoliday
       then (3:ℚ)/10 * cfg.holidayRiskMultiplier else 0) := by
    split_ifs
    · exact mul_nonneg (by norm_num) hhm
    · exact le_refl 0
  have htz := analyzeTimezoneAnomaly_nonneg cfg t (analyzeTimePattern cfg holidays t)
  rw [hup] at *
  linarith

/-- The time configuration built in `FraudDetector._initialize_algorithms`
(fraud_detector.py lines 77-84). -/
def detectorTimeConfig : TimeConfig :=
  { suspiciousHours := [0, 1, 2, 3, 4, 5, 22, 23]
    weekendRiskMultiplier := 12/10
    holidayRiskMultiplier := 3/2
    timezoneThreshold := 8
    enableHolidayDetection := true
    customHolidays := [] }

/-- C10 witness: a first transaction at 14:00 on a Wednesday. -/
theorem first_transaction_time_risk_at_least_tenth_witness :
    1/10 ≤ (timeAnalyze detectorTimeConfig [] []
      { userId := "u1", location := none, metaTimezone := none,
        ts := { hour := 14, pyWeekday := 2, dateStr := "2025-06-03" } }).1 :=
  first_transaction_time_risk_at_least_tenth detectorTimeConfig [] _
    (by norm_num [detectorTimeConfig]) (by norm_num [detectorTimeConfig])

/-! ## Location signal (`algorithms/location.py`, `LocationAlgorithm.analyze`)

The haversine distance `_calculate_distance` is a float computation over
`math.sin`/`math.cos`/`math.atan2`; it is kept abstract as a parameter
`dist lat1 lng1 lat2 lng2`.  The structural claims below hold for every
distance function. -/

structure LocationConfig where
  maxDistanceKm : ℚ
  suspiciousDistanceKm : ℚ
  timeWindowMinutes : ℕ
  enableGeoFencing : Bool
  trustedLocations : List Location
deriving Repr, DecidableEq

/-- The record `_add_location` tries to build: a location plus an
observation timestamp.  `models.Location` has no such field, which is
exactly the C3 divergence. -/
structure StoredLocation where
  lat : ℚ
  lng : ℚ
  country : Option String
  city : Option String
  state : Option String
  timestamp : ℚ
deriving Repr, DecidableEq

structure LocState where
  userLocations : List (String × List StoredLocation)
deriving Repr, DecidableEq

/-- `_get_recent_locations`: entries with
`(current_time - loc.timestamp).total_seconds() <= time_window_minutes * 60`
(stored entries always carry a timestamp attribute). -/
def getRecentLocations (s : LocState) (userId : String) (now : ℚ)
    (windowMin : ℕ) : List StoredLocation :=
  ((alistLookup s.userLocations userId).getD []).filter fun loc =>
    now - loc.timestamp ≤ (windowMin : ℚ) * 60

/-- The banded risk of `LocationAlgorithm.analyze` (lines 53-62) as a
function of the minimum distance to the retained history. -/
def locationBandScore (cfg : LocationConfig) (minDist : ℚ) : ℚ :=
  if minDist > cfg.maxDistanceKm then 1
  else if minDist > cfg.suspiciousDistanceKm then
    1/2 + ((minDist - cfg.suspiciousDistanceKm) /
      (cfg.maxDistanceKm - cfg.suspiciousDistanceKm)) * (1/2)
  else (minDist / cfg.suspiciousDistanceKm) * (1/2)

/-- `_add_location` (lines 90-112) executes
`Location(lat=..., lng=..., country=..., city=..., state=..., timestamp=datetime.now())`.
`models.Location` (models.py lines 10-17) has no `timestamp` field, so this
dataclass constructor call raises `TypeError` unconditionally; the model is
the always-failing computation. -/
def addLocation (s : LocState) (userId : String) (loc : Location) (now : ℚ) :
    Except Unit LocState :=
  Except.error ()

/-- `LocationAlgorithm.analyze` (lines 32-77): score from the banded minimum
distance (with the geo-fencing cap), then store the current location.
The store step always raises, so the `except` value is what the orchestrator
observes whenever the transaction carries a location. -/
def locationAnalyze (cfg : LocationConfig) (dist : ℚ → ℚ → ℚ → ℚ → ℚ)
    (s : LocState) (userId : String) (currentLocation : Option Location)
    (now : ℚ) : Except Unit (ℚ × LocState) :=
  match currentLocation with
  | none => Except.ok (0, s)
  | some cur =>
      let recent := getRecentLocations s userId now cfg.timeWindowMinutes
      let base : ℚ :=
        match recent with
        | [] => 0
        | l :: ls =>
            let minDist := ls.foldl
              (fun acc loc => min acc (dist cur.lat cur.lng loc.lat loc.lng))
              (dist cur.lat cur.lng l.lat l.lng)
            locationBandScore cfg minDist
      let risk : ℚ :=
        if cfg.enableGeoFencing ∧ cfg.trustedLocations ≠ [] ∧
            (cfg.trustedLocations.any fun tl =>
              dist cur.lat cur.lng tl.lat tl.lng ≤ 1)
        then min base (2/10) else base
      (addLocation s userId cur now).map fun s2 => (min risk 1, s2)

/-- C3 is false of the code: for every transaction that carries a location,
`LocationAlgorithm.analyze` raises `TypeError` inside `_add_location`
(`models.Location` has no `timestamp` field), so the computed banded score
is never returned and no location is ever stored; the orchestrator absorbs
the error and drops the location rule from the aggregate. -/
theorem location_analyze_raises_on_location (cfg : LocationConfig)
    (dist : ℚ → ℚ → ℚ → ℚ → ℚ) (s : LocState) (userId : String)
    (cur : Location) (now : ℚ) :
    locationAnalyze cfg dist s userId (some cur) now = Except.error () :=
  rfl

end FraudCatcher
